import Mathlib

/-!
Verification of the fullstack-docker-app deployment description: the
reverse-proxy routing rules (nginx/default.conf), the backend HTTP service
(backend/server.js), the service topology (docker-compose.yml) and the
build-publish-deploy pipeline (.github/workflows/deploy.yml), embedded
shallowly as executable Lean definitions.
-/

/-- A reverse-proxy routing rule, one per `location` block of
nginx/default.conf: a path prefix, the internal target service and port of
its `proxy_pass` directive, and whether the matched prefix is stripped
before forwarding (true exactly when the `proxy_pass` URI carries a
trailing slash; the deployed config has none, by its own comment
"no trailing slash to preserve /api prefix"). -/
structure RoutingRule where
  path_prefix : String
  target_service : String
  target_port : Nat
  strip_prefix : Bool
deriving DecidableEq, Repr

/-- nginx/default.conf `location / { proxy_pass http://frontend:3000; }`. -/
def frontendRule : RoutingRule := ⟨"/", "frontend", 3000, false⟩

/-- nginx/default.conf `location /api/ { proxy_pass http://backend:4000; }`
(no trailing slash, so the `/api` prefix is preserved downstream). -/
def apiRule : RoutingRule := ⟨"/api/", "backend", 4000, false⟩

/-- The deployed rule table, in registration order of the config file. -/
def nginxRules : List RoutingRule := [frontendRule, apiRule]

/-- A rule matches a request path when its registered prefix is a prefix of
the path (nginx prefix-location matching). -/
def ruleMatches (r : RoutingRule) (path : String) : Bool :=
  r.path_prefix.data.isPrefixOf path.data

/-- Keep the better of the current best rule and a candidate: a matching
candidate replaces the best only when its prefix is strictly longer, so of
two equal-length matching prefixes the first registered wins. -/
def pickRule (path : String) (best : Option RoutingRule) (r : RoutingRule) :
    Option RoutingRule :=
  if ruleMatches r path then
    match best with
    | none => some r
    | some b =>
      if b.path_prefix.length < r.path_prefix.length then some r else some b
  else best

/-- Longest-prefix-match rule selection over a registered rule table
(nginx picks the longest matching prefix location). -/
def route (rules : List RoutingRule) (path : String) : Option RoutingRule :=
  rules.foldl (pickRule path) none

/-- The path forwarded downstream: with `proxy_pass` carrying a trailing
slash the matched prefix would be stripped; without one (the deployed
config) the full request path is forwarded unchanged. -/
def forwardedPath (r : RoutingRule) (path : String) : String :=
  if r.strip_prefix then String.mk (path.data.drop r.path_prefix.length)
  else path

/-- Outcome at the proxy's public HTTP listener: forward to a rule's target
with a downstream path, or answer 404 when no rule matches. -/
inductive ProxyOutcome
  | forward (r : RoutingRule) (downstreamPath : String)
  | notFound
deriving DecidableEq, Repr

/-- Dispatch one inbound request path against a rule table. -/
def dispatch (rules : List RoutingRule) (path : String) : ProxyOutcome :=
  match route rules path with
  | some r => ProxyOutcome.forward r (forwardedPath r path)
  | none => ProxyOutcome.notFound

/-- An HTTP response of the backend Express app: status code and JSON body
as a list of key/value pairs (`res.json` answers with status 200). -/
structure Response where
  status : Nat
  body : List (String × String)
deriving DecidableEq, Repr

/-- One route registered on the Express app: method, exact path, response. -/
structure AppRoute where
  method : String
  path : String
  response : Response
deriving DecidableEq, Repr

/-- The response of `app.get("/api/health", ...)` in backend/server.js:
`res.json({ status: "ok" })`, status 200. -/
def healthResponse : Response := ⟨200, [("status", "ok")]⟩

/-- The routes backend/server.js registers, in registration order: the
welcome route and the health route (the tutorial routes file loaded
afterwards is not part of the sources and cannot shadow earlier routes,
since Express matches in registration order). -/
def appRoutes : List AppRoute :=
  [⟨"GET", "/", ⟨200, [("message", "Welcome to Test application.")]⟩⟩,
   ⟨"GET", "/api/health", healthResponse⟩]

/-- Express request handling over the registered routes: the first route
whose method and path match answers the request. -/
def handle (routes : List AppRoute) (method path : String) : Option Response :=
  (routes.find? (fun r => r.method == method && r.path == path)).map
    (fun r => r.response)

/-- Whether a status code is a 2xx success code. -/
def is2xx (status : Nat) : Bool := 200 ≤ status && status < 300

/-- Node's process.exit: with no argument the process exits with the
current exit code, which defaults to 0. -/
def processExit (code : Option Nat) : Nat := code.getD 0

/-- Fate of the backend process after the initial MongoDB connection
attempt settles. -/
inductive BackendBoot
  | serving
  | exited (code : Nat)
deriving DecidableEq, Repr

/-- backend/server.js database connection: `.then` logs and keeps serving,
`.catch` logs and calls `process.exit()` with no argument. -/
def afterConnect (connected : Bool) : BackendBoot :=
  if connected then BackendBoot.serving
  else BackendBoot.exited (processExit none)

/-- An image tag pushed by a build-push step of deploy.yml: the Docker Hub
owner is referenced through a repository secret, the repository and tag are
literal. -/
structure ImageTag where
  ownerSecret : String
  repository : String
  tag : String
deriving DecidableEq, Repr

/-- One docker/build-push-action step of deploy.yml. -/
structure BuildPushStep where
  context : String
  push : Bool
  tags : List ImageTag
deriving DecidableEq, Repr

/-- deploy.yml step "Build & push backend":
tags: `${DOCKERHUB_USERNAME}/fullstack-backend:latest` only. -/
def backendBuildPush : BuildPushStep :=
  ⟨"./backend", true, [⟨"DOCKERHUB_USERNAME", "fullstack-backend", "latest"⟩]⟩

/-- deploy.yml step "Build & push frontend":
tags: `${DOCKERHUB_USERNAME}/fullstack-frontend:latest` only. -/
def frontendBuildPush : BuildPushStep :=
  ⟨"./frontend", true, [⟨"DOCKERHUB_USERNAME", "fullstack-frontend", "latest"⟩]⟩

/-- Whether a tag is content-addressed, i.e. derived from the triggering
revision the way the documentation's §5.8 recommendation would produce it
(`sha-` followed by the commit identifier). -/
def isContentAddressed (revision : String) (t : ImageTag) : Bool :=
  t.tag == "sha-" ++ revision

/-- Outcome of a pipeline stage or job. -/
inductive StageOutcome
  | ok
  | failed
  | skipped
deriving DecidableEq, Repr

/-- The two jobs of deploy.yml: `deploy` declares `needs: build-and-push`,
so it runs only when the build-and-push job succeeded and is skipped
otherwise; each Bool says whether the job's own work would succeed. -/
def runWorkflow (buildSucceeds deploySucceeds : Bool) :
    StageOutcome × StageOutcome :=
  let b := if buildSucceeds then StageOutcome.ok else StageOutcome.failed
  let d :=
    if b == StageOutcome.ok then
      if deploySucceeds then StageOutcome.ok else StageOutcome.failed
    else StageOutcome.skipped
  (b, d)

/-- One command of the remote deploy script, acting on a host state of type
`σ`; `none` models a nonzero exit status. -/
structure Command (σ : Type) where
  name : String
  run : σ → Option σ

/-- `set -e` shell semantics of the deploy.yml script: commands run in
order; the first failing command ends the script, later commands never run
and the state stays as after the last successful command. Returns the final
host state, the names of the commands that executed, and success. -/
def runSetE {σ : Type} : List (Command σ) → σ → σ × List String × Bool
  | [], s => (s, [], true)
  | c :: rest, s =>
    match c.run s with
    | none => (s, [c.name], false)
    | some s1 =>
      let r := runSetE rest s1
      (r.1, c.name :: r.2.1, r.2.2)

/-- The deploy.yml "Deploy on EC2" script, command by command, with the
effect of each command abstracted as a state transformer. -/
def deployScript {σ : Type} (cdC loginC pullC upC pruneC : σ → Option σ) :
    List (Command σ) :=
  [⟨"cd /opt/myapp", cdC⟩,
   ⟨"docker login --password-stdin", loginC⟩,
   ⟨"docker compose pull", pullC⟩,
   ⟨"docker compose up -d --remove-orphans", upC⟩,
   ⟨"docker system prune -f", pruneC⟩]

/-- A service descriptor: its name and its `depends_on` entries, from
docker-compose.yml. -/
structure ServiceDesc where
  name : String
  depends_on : List String
deriving DecidableEq, Repr

/-- The services of docker-compose.yml in declaration order: nginx (with
`depends_on: frontend, backend`), frontend, backend, mongo. -/
def composeDescriptors : List ServiceDesc :=
  [⟨"nginx", ["frontend", "backend"]⟩,
   ⟨"frontend", []⟩,
   ⟨"backend", []⟩,
   ⟨"mongo", []⟩]

/-- The spec's §8 scenario topology
`{db, backend(depends_on=db), frontend(depends_on=backend)}`. -/
def scenarioDescriptors : List ServiceDesc :=
  [⟨"db", []⟩, ⟨"backend", ["db"]⟩, ⟨"frontend", ["backend"]⟩]

/-- Modelled from the spec: §4.1 Topology Resolver (the resolver itself is
not among the repository's files; only its input, docker-compose.yml, is).
The first pending descriptor, in declaration order, whose dependencies are
all already resolved — the stable tie-break of Kahn's algorithm. -/
def pickReady (resolved : List String) (pending : List ServiceDesc) :
    Option ServiceDesc :=
  pending.find? (fun d => d.depends_on.all (fun n => resolved.contains n))

/-- Modelled from the spec: §4.1, Kahn's algorithm with declaration-order
tie-break; `none` when no pending service is ready (a cycle). -/
def resolveAux : Nat → List String → List ServiceDesc → Option (List String)
  | _, _, [] => some []
  | 0, _, _ => none
  | Nat.succ fuel, resolved, pending =>
    match pickReady resolved pending with
    | none => none
    | some d =>
      (resolveAux fuel (resolved ++ [d.name])
          (pending.eraseP (fun e => e.name == d.name))).map
        (fun rest => d.name :: rest)

/-- Modelled from the spec: §4.1 validation — unique service names and
every `depends_on` entry resolving to a known service. -/
def validDescs (descs : List ServiceDesc) : Bool :=
  ((descs.map (fun d => d.name)).eraseDups.length == descs.length) &&
  descs.all (fun d =>
    d.depends_on.all (fun n => (descs.map (fun e => e.name)).contains n))

/-- Modelled from the spec: §4.1 `resolve`, validation then topological
sort; `none` on invalid or cyclic input. -/
def resolve (descs : List ServiceDesc) : Option (List String) :=
  if validDescs descs then resolveAux descs.length [] descs else none

/-- Whether an order respects every `depends_on` edge: each dependency
appears in the order, no later than its dependent. -/
def respectsEdges (descs : List ServiceDesc) (order : List String) : Bool :=
  descs.all (fun d =>
    d.depends_on.all (fun dep =>
      match order.indexOf? dep, order.indexOf? d.name with
      | some i, some j => decide (i ≤ j)
      | _, _ => false))

/-- The service names of docker-compose.yml, in declaration order. -/
def composeServiceNames : List String :=
  composeDescriptors.map (fun d => d.name)

/-- The target host: per service name, the content digest of the image
pulled locally, and the running container (image digest and configuration
digest it was created from), if any. -/
structure HostState where
  localImages : String → Nat
  running : String → Option (Nat × Nat)

/-- What a deploy run brings to the host: the published image digest and
the transferred configuration digest per service (unchanged published
images and unchanged manifests give the same `Desired`). -/
structure Desired where
  images : String → Nat
  configs : String → Nat

/-- Modelled from the spec: `docker compose pull` on the target host
fetches the published images, replacing the local ones; running containers
are untouched. -/
def composePull (d : Desired) (s : HostState) : HostState :=
  { s with localImages := d.images }

/-- Modelled from the spec: `docker compose up -d` on one service —
recreate the container (count 1) exactly when no container of that name
runs or its image or configuration differs from the local image and the
transferred configuration; otherwise keep it untouched (count 0). -/
def upService (s : HostState) (cfgs : String → Nat) (svc : String) :
    (Nat × Nat) × Nat :=
  let img := s.localImages svc
  let cfg := cfgs svc
  match s.running svc with
  | some rc => if rc.1 == img && rc.2 == cfg then (rc, 0) else ((img, cfg), 1)
  | none => ((img, cfg), 1)

/-- Modelled from the spec: `docker compose up -d` over all compose
services; returns the new host state and the number of recreations. -/
def composeUp (cfgs : String → Nat) (s : HostState) : HostState × Nat :=
  ({ s with
      running := fun svc =>
        if composeServiceNames.contains svc then
          some (upService s cfgs svc).1
        else s.running svc },
   (composeServiceNames.map (fun svc => (upService s cfgs svc).2)).sum)

/-- The Deploying stage on the target host: transfer the manifests (carried
in `Desired.configs`), `docker compose pull`, then `docker compose up -d`;
per deploy.yml's script. -/
def deployStage (d : Desired) (s : HostState) : HostState × Nat :=
  composeUp d.configs (composePull d s)

/-- A value occurring in a configuration or workflow file: literal text, a
`${NAME}` host-environment reference substituted on the target host, or a
`secrets.NAME` reference resolved by the CI runner. -/
inductive ConfigValue
  | lit (s : String)
  | hostVar (name : String)
  | secretRef (name : String)
deriving DecidableEq, Repr

/-- A keyed entry of a manifest or of a workflow step's `with:` block. -/
structure ManifestEntry where
  key : String
  value : ConfigValue
deriving DecidableEq, Repr

/-- docker-compose.yml as transferred to the host: image references and
environment bindings (credentials appear only as `${...}` host variables,
resolved from the host's own .env, never as literals). -/
def composeManifest : List ManifestEntry :=
  [⟨"nginx.image", ConfigValue.lit "nginx:alpine"⟩,
   ⟨"frontend.image", ConfigValue.hostVar "DOCKERHUB_USERNAME"⟩,
   ⟨"backend.image", ConfigValue.hostVar "DOCKERHUB_USERNAME"⟩,
   ⟨"backend.env.NODE_ENV", ConfigValue.lit "production"⟩,
   ⟨"backend.env.MONGO_URI", ConfigValue.hostVar "MONGO_URI"⟩,
   ⟨"mongo.image", ConfigValue.lit "mongo:6"⟩,
   ⟨"mongo.env.MONGO_INITDB_ROOT_USERNAME",
     ConfigValue.hostVar "MONGO_INITDB_ROOT_USERNAME"⟩,
   ⟨"mongo.env.MONGO_INITDB_ROOT_PASSWORD",
     ConfigValue.hostVar "MONGO_INITDB_ROOT_PASSWORD"⟩]

/-- nginx/default.conf as transferred to the host: listener and the two
proxy targets, all literal, no credentials. -/
def nginxManifest : List ManifestEntry :=
  [⟨"listen", ConfigValue.lit "80"⟩,
   ⟨"location./.proxy_pass", ConfigValue.lit "http://frontend:3000"⟩,
   ⟨"location./api/.proxy_pass", ConfigValue.lit "http://backend:4000"⟩]

/-- The two files deploy.yml's scp step copies to the target host. -/
def transferredManifests : List (String × List ManifestEntry) :=
  [("docker-compose.yml", composeManifest),
   ("nginx/default.conf", nginxManifest)]

/-- The `with:` parameters of the deploy job's steps (scp-action,
ssh-action, docker/login-action): connection and registry credentials occur
only as secret references. -/
def deployJobParams : List ManifestEntry :=
  [⟨"host", ConfigValue.secretRef "VM_SSH_HOST"⟩,
   ⟨"username", ConfigValue.secretRef "VM_SSH_USER"⟩,
   ⟨"key", ConfigValue.secretRef "VM_SSH_KEY"⟩,
   ⟨"source", ConfigValue.lit "docker-compose.yml,nginx/default.conf"⟩,
   ⟨"target", ConfigValue.lit "/opt/myapp"⟩,
   ⟨"password", ConfigValue.secretRef "DOCKERHUB_TOKEN"⟩]

/-- The keys under which credentials travel. -/
def credentialKeys : List String :=
  ["key", "password", "backend.env.MONGO_URI",
   "mongo.env.MONGO_INITDB_ROOT_USERNAME",
   "mongo.env.MONGO_INITDB_ROOT_PASSWORD"]

/-- Whether a value is a secret reference. -/
def isSecretRef : ConfigValue → Bool
  | ConfigValue.secretRef _ => true
  | _ => false

/-- Whether a value is literal text. -/
def isLit : ConfigValue → Bool
  | ConfigValue.lit _ => true
  | _ => false

/-- Render one value of a file as transferred by scp: the files are copied
verbatim, so host variables stay `${NAME}` markers and only the CI runner
could inline a secret value. -/
def renderValue (secrets : String → String) : ConfigValue → String
  | ConfigValue.lit s => s
  | ConfigValue.hostVar n => "$\x7b" ++ n ++ "\x7d"
  | ConfigValue.secretRef n => secrets n

/-- The byte content of the transferred files as a function of the secret
store. -/
def renderTransferred (secrets : String → String) :
    List (String × List (String × String)) :=
  transferredManifests.map (fun m =>
    (m.1, m.2.map (fun e => (e.key, renderValue secrets e.value))))

/-- One command of the deploy script as it touches the job log: the secret
references interpolated into its text, whether it prints its own text
(echo does), and whether its standard output reaches the log (the echo's
is piped into `docker login --password-stdin` instead). -/
structure ScriptCommand where
  cmdName : String
  argvSecrets : List String
  printsArgv : Bool
  stdoutToLog : Bool
deriving DecidableEq, Repr

/-- The deploy.yml script, command by command: only the echo carries the
DOCKERHUB_TOKEN secret in its text, and its output is piped, not logged;
docker login's own logged output does not repeat its input. -/
def deployScriptCommands : List ScriptCommand :=
  [⟨"cd /opt/myapp", [], false, true⟩,
   ⟨"echo <token>", ["DOCKERHUB_TOKEN"], true, false⟩,
   ⟨"docker login -u <user> --password-stdin", ["DOCKERHUB_USERNAME"], false, true⟩,
   ⟨"docker compose pull", [], false, true⟩,
   ⟨"docker compose up -d --remove-orphans", [], false, true⟩,
   ⟨"docker system prune -f", [], false, true⟩]

/-- The secret references whose values reach the job log: those of a
command that prints its own text to a log-bound standard output. -/
def secretsReachingLog (cmds : List ScriptCommand) : List String :=
  cmds.foldr
    (fun c acc =>
      if c.printsArgv && c.stdoutToLog then c.argvSecrets ++ acc else acc)
    []

/-- The `/api/` prefix is strictly longer than the catch-all `/` prefix. -/
theorem frontend_shorter_than_api :
    frontendRule.path_prefix.length < apiRule.path_prefix.length := by decide

/-- C1: with rules for `/` and `/api/`, route() is longest-prefix match:
every path beginning with `/api/` goes to the backend target on port 4000,
and every other request path (they all begin with `/`) goes to the frontend
catch-all target on port 3000. -/
theorem route_longest_match (p : String) :
    (("/api/").data.isPrefixOf p.data = true →
      route nginxRules p = some apiRule ∧
      apiRule.target_service = "backend" ∧ apiRule.target_port = 4000) ∧
    (("/").data.isPrefixOf p.data = true →
      ("/api/").data.isPrefixOf p.data = false →
      route nginxRules p = some frontendRule ∧
      frontendRule.target_service = "frontend" ∧
      frontendRule.target_port = 3000) := by
  constructor
  · intro h
    refine ⟨?_, rfl, rfl⟩
    have hlen := frontend_shorter_than_api
    simp [frontendRule, apiRule] at hlen
    by_cases h0 : ("/").data.isPrefixOf p.data = true
    · simp [route, nginxRules, pickRule, ruleMatches, frontendRule, apiRule, h, h0, hlen]
    · simp [route, nginxRules, pickRule, ruleMatches, frontendRule, apiRule, h, h0]
  · intro h0 h1
    refine ⟨?_, rfl, rfl⟩
    simp [route, nginxRules, pickRule, ruleMatches, frontendRule, apiRule, h0, h1]

/-- Witness for C1 at the spec's own examples. -/
theorem route_longest_match_witness :
    route nginxRules "/api/health" = some apiRule ∧
    route nginxRules "/x" = some frontendRule :=
  ⟨((route_longest_match "/api/health").1 (by decide)).1,
   ((route_longest_match "/x").2 (by decide) (by decide)).1⟩

/-- C2: with the strip flag unset the full request path is forwarded
downstream unchanged; the deployed `/api/` rule (proxy_pass without a
trailing slash) keeps the flag unset, so `/api/health` reaches the backend
as `/api/health`, not `/health`. -/
theorem strip_unset_preserves_path :
    (∀ (r : RoutingRule) (p : String),
      r.strip_prefix = false → forwardedPath r p = p) ∧
    apiRule.strip_prefix = false ∧
    forwardedPath apiRule "/api/health" = "/api/health" ∧
    forwardedPath apiRule "/api/health" ≠ "/health" ∧
    dispatch nginxRules "/api/health" =
      ProxyOutcome.forward apiRule "/api/health" := by
  refine ⟨?_, rfl, rfl, by decide, by decide⟩
  intro r p h
  simp [forwardedPath, h]

/-- Witness for C2 at the deployed `/api/` rule and the health path. -/
theorem strip_unset_preserves_path_witness :
    forwardedPath apiRule "/api/health" = "/api/health" :=
  (strip_unset_preserves_path).1 apiRule "/api/health" rfl

/-- C8: an inbound path matched by no registered rule is answered 404; the
deployed table registers the catch-all `/`, which matches every request
path, so route() returns NotFound for no request path and the 404 branch
is unreachable. -/
theorem unmatched_404_unreachable :
    (∀ (rules : List RoutingRule) (p : String),
      route rules p = none → dispatch rules p = ProxyOutcome.notFound) ∧
    (∀ p : String, ("/").data.isPrefixOf p.data = true →
      dispatch nginxRules p ≠ ProxyOutcome.notFound) := by
  constructor
  · intro rules p h
    simp [dispatch, h]
  · intro p h
    have hlen := frontend_shorter_than_api
    simp [frontendRule, apiRule] at hlen
    by_cases h1 : ("/api/").data.isPrefixOf p.data = true
    · simp [dispatch, route, nginxRules, pickRule, ruleMatches, frontendRule,
        apiRule, h, h1, hlen]
    · simp [dispatch, route, nginxRules, pickRule, ruleMatches, frontendRule,
        apiRule, h, h1]

/-- Witness for C8: the empty table answers 404, the deployed one never. -/
theorem unmatched_404_unreachable_witness :
    dispatch [] "/x" = ProxyOutcome.notFound ∧
    dispatch nginxRules "/x" ≠ ProxyOutcome.notFound :=
  ⟨(unmatched_404_unreachable).1 [] "/x" rfl,
   (unmatched_404_unreachable).2 "/x" (by decide)⟩

/-- C7: the backend answers GET on the fixed path `/api/health` with the
machine-readable liveness payload `{ status: "ok" }` and a 2xx status. -/
theorem health_endpoint_contract :
    handle appRoutes "GET" "/api/health" = some healthResponse ∧
    healthResponse.body = [("status", "ok")] ∧
    is2xx healthResponse.status = true := by decide

/-- C10: when the initial MongoDB connection fails, the rejection handler
calls process.exit() and the server does not keep serving; no failure code
is passed, so the exit status defaults to 0. -/
theorem failed_connect_exits_with_zero :
    afterConnect false = BackendBoot.exited 0 ∧
    afterConnect false ≠ BackendBoot.serving ∧
    processExit none = 0 := by decide

/-- C3 counterexample: both build-push steps of deploy.yml push exactly one
tag, `latest`; no step carries a second, content-addressed tag for any
revision (every pushed tag is the string "latest", never of the form
`sha-<revision>`). -/
theorem publish_no_content_addressed_tag :
    backendBuildPush.tags.length = 1 ∧
    frontendBuildPush.tags.length = 1 ∧
    (backendBuildPush.tags ++ frontendBuildPush.tags).all
      (fun t => t.tag == "latest") = true ∧
    ¬ ∃ t ∈ backendBuildPush.tags ++ frontendBuildPush.tags,
        isContentAddressed "0123abc" t = true := by decide

/-- C3 amended: the Publishing stage pushes each successfully built image
(backend and frontend) under exactly one tag, the mutable `latest` tag on
the caller's Docker Hub repository; no immutable content-addressed tag is
pushed. -/
theorem publish_only_latest :
    backendBuildPush.push = true ∧ frontendBuildPush.push = true ∧
    backendBuildPush.tags =
      [⟨"DOCKERHUB_USERNAME", "fullstack-backend", "latest"⟩] ∧
    frontendBuildPush.tags =
      [⟨"DOCKERHUB_USERNAME", "fullstack-frontend", "latest"⟩] := by decide

/-- C5: a failing stage halts the run before any later stage: the deploy
job is skipped whenever build-and-push fails (`needs:`), and inside the
`set -e` deploy script a failing `docker compose pull` stops the script, so
`docker compose up` and `docker system prune` never execute and the host
state stays exactly as after the last successful command. -/
theorem failure_halts_pipeline {σ : Type} (dOk : Bool)
    (cdC loginC pullC upC pruneC : σ → Option σ) (s s1 s2 : σ)
    (h1 : cdC s = some s1) (h2 : loginC s1 = some s2)
    (h3 : pullC s2 = none) :
    (runWorkflow false dOk).2 = StageOutcome.skipped ∧
    runSetE (deployScript cdC loginC pullC upC pruneC) s =
      (s2, ["cd /opt/myapp", "docker login --password-stdin",
            "docker compose pull"], false) := by
  constructor
  · simp [runWorkflow]
  · simp [runSetE, deployScript, h1, h2, h3]

/-- Witness for C5: a concrete host state and command set in which the pull
command fails. -/
theorem failure_halts_pipeline_witness :
    (runWorkflow false true).2 = StageOutcome.skipped ∧
    runSetE (deployScript (σ := Nat) some some (fun _ => none) some some) 0 =
      (0, ["cd /opt/myapp", "docker login --password-stdin",
           "docker compose pull"], false) :=
  failure_halts_pipeline true some some (fun _ => none) some some 0 0 0
    rfl rfl rfl

/-- After `docker compose up -d` handles one service, the container that
runs carries exactly the local image digest and the transferred
configuration digest. -/
theorem upService_state (s : HostState) (cfgs : String → Nat) (svc : String) :
    (upService s cfgs svc).1 = (s.localImages svc, cfgs svc) := by
  unfold upService
  cases hr : s.running svc with
  | none => rfl
  | some rc =>
    by_cases hb : (rc.1 == s.localImages svc && rc.2 == cfgs svc) = true
    · simp only [hb, if_true]
      simp only [Bool.and_eq_true, beq_iff_eq] at hb
      exact Prod.ext hb.1 hb.2
    · simp only [hb]
      rfl

/-- A service whose running container already carries the local image and
the transferred configuration is not recreated. -/
theorem upService_unchanged (s : HostState) (cfgs : String → Nat)
    (svc : String)
    (h : s.running svc = some (s.localImages svc, cfgs svc)) :
    (upService s cfgs svc).2 = 0 := by
  simp [upService, h]

/-- C4: the Deploying stage is idempotent — running it a second time with
the same published images and the same transferred manifests recreates
zero containers. -/
theorem deploy_idempotent (d : Desired) (s : HostState) :
    (deployStage d (deployStage d s).1).2 = 0 := by
  simp only [deployStage, composePull, composeUp]
  simp only [List.sum_eq_zero_iff, List.mem_map]
  rintro n ⟨svc, hsvc, rfl⟩
  have hc : composeServiceNames.contains svc = true := by
    simpa using hsvc
  apply upService_unchanged
  simp [hc, upService_state]
  exact fun hn => absurd hsvc hn

/-- C6: topology resolution respects every depends_on edge: the deployed
compose service set resolves to an order where nginx follows its
dependencies frontend and backend, and the spec's scenario
`{db, backend(depends_on=db), frontend(depends_on=backend)}` resolves to
`[db, backend, frontend]`, each dependency no later than its dependent. -/
theorem resolve_respects_depends :
    resolve composeDescriptors =
      some ["frontend", "backend", "nginx", "mongo"] ∧
    respectsEdges composeDescriptors
      ["frontend", "backend", "nginx", "mongo"] = true ∧
    resolve scenarioDescriptors = some ["db", "backend", "frontend"] ∧
    respectsEdges scenarioDescriptors ["db", "backend", "frontend"] = true := by
  decide

/-- C9: remote-execution and registry credentials are supplied only as
secret references in the deploy job, the transferred files are independent
of every secret value (they embed none), credential-keyed manifest entries
are host-variable references rather than literals, and no secret reference
reaches the job's logged output (the token is piped into
`docker login --password-stdin`). -/
theorem credentials_referenced_never_embedded :
    deployJobParams.all
      (fun e => !(credentialKeys.contains e.key) || isSecretRef e.value) =
        true ∧
    (∀ s1 s2 : String → String, renderTransferred s1 = renderTransferred s2) ∧
    (transferredManifests.all (fun m =>
      m.2.all (fun e =>
        !(credentialKeys.contains e.key) || !(isLit e.value)))) = true ∧
    secretsReachingLog deployScriptCommands = [] := by
  refine ⟨by decide, fun s1 s2 => rfl, by decide, by decide⟩
